import Mathlib

/-!
Verification of the public type-definition header of the Azure Kinect Body
Tracking SDK (files `k4abttypes.h` and `k4abtversion.h`).

The header contains no algorithmic code: it declares enumerations, plain
structs, a union, opaque handle typedefs and literal constants.  The shallow
embedding below transcribes those declarations.  C `float` scalars are modelled
by Lean's `Float` used purely as an abstract scalar slot: the claims about the
quaternion union concern which slot aliases which, never floating-point
arithmetic.
-/

/-- Enumeration `k4abt_joint_id_t` from `k4abttypes.h` (lines 57-86): the model
fitting joint definition.  Constructors are listed in the source order;
`K4ABT_JOINT_PELVIS` carries the explicit C initializer `= 0` and every later
enumerator takes the previous value plus one, so the count sentinel
`K4ABT_JOINT_COUNT` closes the list. -/
inductive k4abt_joint_id_t where
  | K4ABT_JOINT_PELVIS
  | K4ABT_JOINT_SPINE_NAVAL
  | K4ABT_JOINT_SPINE_CHEST
  | K4ABT_JOINT_NECK
  | K4ABT_JOINT_CLAVICLE_LEFT
  | K4ABT_JOINT_SHOULDER_LEFT
  | K4ABT_JOINT_ELBOW_LEFT
  | K4ABT_JOINT_WRIST_LEFT
  | K4ABT_JOINT_CLAVICLE_RIGHT
  | K4ABT_JOINT_SHOULDER_RIGHT
  | K4ABT_JOINT_ELBOW_RIGHT
  | K4ABT_JOINT_WRIST_RIGHT
  | K4ABT_JOINT_HIP_LEFT
  | K4ABT_JOINT_KNEE_LEFT
  | K4ABT_JOINT_ANKLE_LEFT
  | K4ABT_JOINT_FOOT_LEFT
  | K4ABT_JOINT_HIP_RIGHT
  | K4ABT_JOINT_KNEE_RIGHT
  | K4ABT_JOINT_ANKLE_RIGHT
  | K4ABT_JOINT_FOOT_RIGHT
  | K4ABT_JOINT_HEAD
  | K4ABT_JOINT_NOSE
  | K4ABT_JOINT_EYE_LEFT
  | K4ABT_JOINT_EAR_LEFT
  | K4ABT_JOINT_EYE_RIGHT
  | K4ABT_JOINT_EAR_RIGHT
  | K4ABT_JOINT_COUNT
  deriving DecidableEq, Fintype

/-- The C ordinal of each `k4abt_joint_id_t` enumerator: `K4ABT_JOINT_PELVIS`
is explicitly `0` in the source, each following enumerator is the previous
value plus one (the C implicit-increment rule). -/
def jointIdOrdinal : k4abt_joint_id_t → Nat
  | .K4ABT_JOINT_PELVIS => 0
  | .K4ABT_JOINT_SPINE_NAVAL => 1
  | .K4ABT_JOINT_SPINE_CHEST => 2
  | .K4ABT_JOINT_NECK => 3
  | .K4ABT_JOINT_CLAVICLE_LEFT => 4
  | .K4ABT_JOINT_SHOULDER_LEFT => 5
  | .K4ABT_JOINT_ELBOW_LEFT => 6
  | .K4ABT_JOINT_WRIST_LEFT => 7
  | .K4ABT_JOINT_CLAVICLE_RIGHT => 8
  | .K4ABT_JOINT_SHOULDER_RIGHT => 9
  | .K4ABT_JOINT_ELBOW_RIGHT => 10
  | .K4ABT_JOINT_WRIST_RIGHT => 11
  | .K4ABT_JOINT_HIP_LEFT => 12
  | .K4ABT_JOINT_KNEE_LEFT => 13
  | .K4ABT_JOINT_ANKLE_LEFT => 14
  | .K4ABT_JOINT_FOOT_LEFT => 15
  | .K4ABT_JOINT_HIP_RIGHT => 16
  | .K4ABT_JOINT_KNEE_RIGHT => 17
  | .K4ABT_JOINT_ANKLE_RIGHT => 18
  | .K4ABT_JOINT_FOOT_RIGHT => 19
  | .K4ABT_JOINT_HEAD => 20
  | .K4ABT_JOINT_NOSE => 21
  | .K4ABT_JOINT_EYE_LEFT => 22
  | .K4ABT_JOINT_EAR_LEFT => 23
  | .K4ABT_JOINT_EYE_RIGHT => 24
  | .K4ABT_JOINT_EAR_RIGHT => 25
  | .K4ABT_JOINT_COUNT => 26

/-- The named enumerators of `k4abt_joint_id_t` (every enumerator before the
count sentinel), in the order they are listed in the source. -/
def allNamedJoints : List k4abt_joint_id_t :=
  [ .K4ABT_JOINT_PELVIS
  , .K4ABT_JOINT_SPINE_NAVAL
  , .K4ABT_JOINT_SPINE_CHEST
  , .K4ABT_JOINT_NECK
  , .K4ABT_JOINT_CLAVICLE_LEFT
  , .K4ABT_JOINT_SHOULDER_LEFT
  , .K4ABT_JOINT_ELBOW_LEFT
  , .K4ABT_JOINT_WRIST_LEFT
  , .K4ABT_JOINT_CLAVICLE_RIGHT
  , .K4ABT_JOINT_SHOULDER_RIGHT
  , .K4ABT_JOINT_ELBOW_RIGHT
  , .K4ABT_JOINT_WRIST_RIGHT
  , .K4ABT_JOINT_HIP_LEFT
  , .K4ABT_JOINT_KNEE_LEFT
  , .K4ABT_JOINT_ANKLE_LEFT
  , .K4ABT_JOINT_FOOT_LEFT
  , .K4ABT_JOINT_HIP_RIGHT
  , .K4ABT_JOINT_KNEE_RIGHT
  , .K4ABT_JOINT_ANKLE_RIGHT
  , .K4ABT_JOINT_FOOT_RIGHT
  , .K4ABT_JOINT_HEAD
  , .K4ABT_JOINT_NOSE
  , .K4ABT_JOINT_EYE_LEFT
  , .K4ABT_JOINT_EAR_LEFT
  , .K4ABT_JOINT_EYE_RIGHT
  , .K4ABT_JOINT_EAR_RIGHT ]

/-- Enumeration `k4abt_sensor_orientation_t` from `k4abttypes.h`
(lines 97-103): sensor mounting orientation types.
`K4ABT_SENSOR_ORIENTATION_DEFAULT` carries the explicit C initializer `= 0`;
the rest follow by the C implicit-increment rule. -/
inductive k4abt_sensor_orientation_t where
  | K4ABT_SENSOR_ORIENTATION_DEFAULT
  | K4ABT_SENSOR_ORIENTATION_CLOCKWISE90
  | K4ABT_SENSOR_ORIENTATION_COUNTERCLOCKWISE90
  | K4ABT_SENSOR_ORIENTATION_FLIP180
  deriving DecidableEq, Fintype

/-- The C ordinal of each `k4abt_sensor_orientation_t` enumerator. -/
def orientationOrdinal : k4abt_sensor_orientation_t → Nat
  | .K4ABT_SENSOR_ORIENTATION_DEFAULT => 0
  | .K4ABT_SENSOR_ORIENTATION_CLOCKWISE90 => 1
  | .K4ABT_SENSOR_ORIENTATION_COUNTERCLOCKWISE90 => 2
  | .K4ABT_SENSOR_ORIENTATION_FLIP180 => 3

/-- The enumerators of `k4abt_sensor_orientation_t` in source order. -/
def allOrientations : List k4abt_sensor_orientation_t :=
  [ .K4ABT_SENSOR_ORIENTATION_DEFAULT
  , .K4ABT_SENSOR_ORIENTATION_CLOCKWISE90
  , .K4ABT_SENSOR_ORIENTATION_COUNTERCLOCKWISE90
  , .K4ABT_SENSOR_ORIENTATION_FLIP180 ]

/-- Struct `_k4abt_tracker_configuration_t` from `k4abttypes.h`
(lines 110-117): its single field is the sensor mounting orientation. -/
structure k4abt_tracker_configuration_t where
  sensor_orientation : k4abt_sensor_orientation_t
  deriving DecidableEq

/-- Constant `K4ABT_TRACKER_CONFIG_DEFAULT` from `k4abttypes.h` (line 201):
`{ K4ABT_SENSOR_ORIENTATION_DEFAULT }`. -/
def K4ABT_TRACKER_CONFIG_DEFAULT : k4abt_tracker_configuration_t :=
  { sensor_orientation := .K4ABT_SENSOR_ORIENTATION_DEFAULT }

/-- The inner struct `_wxyz` of the union `k4a_quaternion_t` from
`k4abttypes.h` (lines 136-142): four C `float` scalars laid out in the order
w, x, y, z. -/
structure k4a_quaternion_wxyz where
  w : Float
  x : Float
  y : Float
  z : Float

/-- Union `k4a_quaternion_t` from `k4abttypes.h` (lines 133-144).  The union's
storage is the four consecutive scalar slots; we take the named-field struct
`wxyz` as the canonical storage and derive the `float v[4]` view from the
shared layout (slot `i` sits at byte offset `4*i`, exactly where field number
`i` of `_wxyz` sits). -/
structure k4a_quaternion_t where
  wxyz : k4a_quaternion_wxyz

/-- The `float v[4]` view of the union `k4a_quaternion_t`: reading array slot
`i` reads the scalar at byte offset `4*i` of the shared storage. -/
def k4a_quaternion_t.v (q : k4a_quaternion_t) : Fin 4 → Float
  | ⟨0, _⟩ => q.wxyz.w
  | ⟨1, _⟩ => q.wxyz.x
  | ⟨2, _⟩ => q.wxyz.y
  | ⟨3, _⟩ => q.wxyz.z

/-- Writing through the `float v[4]` view of the union `k4a_quaternion_t`:
storing `a` into array slot `i` overwrites the scalar at byte offset `4*i` of
the shared storage and leaves the other three slots unchanged. -/
def k4a_quaternion_t.setV (q : k4a_quaternion_t) (i : Fin 4) (a : Float) :
    k4a_quaternion_t :=
  match i with
  | ⟨0, _⟩ => ⟨⟨a, q.wxyz.x, q.wxyz.y, q.wxyz.z⟩⟩
  | ⟨1, _⟩ => ⟨⟨q.wxyz.w, a, q.wxyz.y, q.wxyz.z⟩⟩
  | ⟨2, _⟩ => ⟨⟨q.wxyz.w, q.wxyz.x, a, q.wxyz.z⟩⟩
  | ⟨3, _⟩ => ⟨⟨q.wxyz.w, q.wxyz.x, q.wxyz.y, a⟩⟩

/-- Modelled from the spec: `k4a_float3_t` is declared in the external sensor
SDK header `k4a/k4atypes.h`, which is not part of this repository's sources;
the spec describes the joint position as `3 x float` (millimeters). -/
structure k4a_float3_t where
  x : Float
  y : Float
  z : Float

/-- Struct `_k4abt_joint_t` from `k4abttypes.h` (lines 151-155): a position
and an orientation quaternion. -/
structure k4abt_joint_t where
  position : k4a_float3_t
  orientation : k4a_quaternion_t

/-- The value of the count sentinel `K4ABT_JOINT_COUNT`, which the C source
uses as the length of the `joints` array of `_k4abt_skeleton_t`. -/
def jointCount : Nat := jointIdOrdinal .K4ABT_JOINT_COUNT

/-- Struct `_k4abt_skeleton_t` from `k4abttypes.h` (lines 159-162): its single
field is the fixed-size array `k4abt_joint_t joints[K4ABT_JOINT_COUNT]`. -/
structure k4abt_skeleton_t where
  joints : Fin jointCount → k4abt_joint_t

/-- Struct `_k4abt_body_t` from `k4abttypes.h` (lines 166-170): a `uint32_t`
body id and a skeleton. -/
structure k4abt_body_t where
  id : Fin (2 ^ 32)
  skeleton : k4abt_skeleton_t

/-- Constant `K4ABT_BODY_INDEX_MAP_BACKGROUND` from `k4abttypes.h`
(line 186). -/
def K4ABT_BODY_INDEX_MAP_BACKGROUND : Nat := 255

/-- Constant `K4ABT_INVALID_BODY_ID` from `k4abttypes.h` (line 190). -/
def K4ABT_INVALID_BODY_ID : Nat := 0xFFFFFFFF

/-- Constant `K4ABT_DEFAULT_TRACKER_SMOOTHING_FACTOR` from `k4abttypes.h`
(line 194): the C literal `0.5f` (exactly representable, so modelling the
scalar with Lean `Float` loses nothing). -/
def K4ABT_DEFAULT_TRACKER_SMOOTHING_FACTOR : Float := 0.5

/-- Modelled from the spec: `K4A_DECLARE_HANDLE` comes from the external
sensor SDK header `k4a/k4atypes.h`, not present in this repository's sources;
it expands to an opaque pointer typedef, and the header's own documentation
states "Invalid handles are set to 0".  A handle is therefore a pointer value
and 0 is its designated invalid value. -/
structure k4abt_tracker_t where
  ptr : Nat
  deriving DecidableEq

/-- Modelled from the spec: same opaque-pointer handle pattern for the body
tracking frame handle ("Invalid handles are set to 0"). -/
structure k4abt_frame_t where
  ptr : Nat
  deriving DecidableEq

/-- The invalid tracker handle: the zero pointer. -/
def k4abt_tracker_t.invalid : k4abt_tracker_t := ⟨0⟩

/-- The invalid frame handle: the zero pointer. -/
def k4abt_frame_t.invalid : k4abt_frame_t := ⟨0⟩

/-- A tracker handle is valid exactly when it is not the zero pointer. -/
def k4abt_tracker_t.isValid (h : k4abt_tracker_t) : Bool := h.ptr != 0

/-- A frame handle is valid exactly when it is not the zero pointer. -/
def k4abt_frame_t.isValid (h : k4abt_frame_t) : Bool := h.ptr != 0

/-- Constant `K4ABT_VERSION_MAJOR` from `k4abtversion.h` (line 7). -/
def K4ABT_VERSION_MAJOR : Nat := 0

/-- Constant `K4ABT_VERSION_MINOR` from `k4abtversion.h` (line 8). -/
def K4ABT_VERSION_MINOR : Nat := 9

/-- Constant `K4ABT_VERSION_PATCH` from `k4abtversion.h` (line 9). -/
def K4ABT_VERSION_PATCH : Nat := 2

/-- Constant `K4ABT_VERSION_PRERELEASE` from `k4abtversion.h` (line 10). -/
def K4ABT_VERSION_PRERELEASE : String := ""

/-- Constant `K4ABT_VERSION_BUILD_METADATA` from `k4abtversion.h`
(line 11). -/
def K4ABT_VERSION_BUILD_METADATA : String := ""

/-- Constant `K4ABT_VERSION_STR` from `k4abtversion.h` (line 13). -/
def K4ABT_VERSION_STR : String := "0.9.2"

/-- The dot-joined rendering "major.minor.patch" described by the spec, used
to compare the version string against the numeric components. -/
def versionDotJoined (major minor patch : Nat) : String :=
  toString major ++ "." ++ toString minor ++ "." ++ toString patch

/-- The full semantic-version rendering described by the claim: the base
string, then a "-prerelease" suffix when the prerelease component is
non-empty, then a "+buildmetadata" suffix when the build-metadata component is
non-empty. -/
def fullVersionStr (base pre meta : String) : String :=
  base ++ (if pre.isEmpty then "" else "-" ++ pre)
       ++ (if meta.isEmpty then "" else "+" ++ meta)

/-- C1: the joint-identifier enumeration `k4abt_joint_id_t` has exactly 26
named values, `K4ABT_JOINT_PELVIS` first and `K4ABT_JOINT_EAR_RIGHT` last,
with consecutive ordinals 0 through 25 in the listed order, every enumerator
other than the sentinel among them, and the count sentinel
`K4ABT_JOINT_COUNT` has ordinal 26. -/
theorem joint_id_enum_shape :
    allNamedJoints.length = 26
  ∧ (∀ i : Fin allNamedJoints.length, jointIdOrdinal (allNamedJoints.get i) = i.val)
  ∧ jointIdOrdinal .K4ABT_JOINT_COUNT = 26
  ∧ allNamedJoints.Nodup
  ∧ (∀ j : k4abt_joint_id_t, j ∈ allNamedJoints ∨ j = .K4ABT_JOINT_COUNT)
  ∧ allNamedJoints.head? = some .K4ABT_JOINT_PELVIS
  ∧ allNamedJoints.getLast? = some .K4ABT_JOINT_EAR_RIGHT := by
  refine ⟨rfl, by decide, rfl, by decide, by decide, rfl, rfl⟩

/-- C2: in the union `k4a_quaternion_t` the array view `v` and the named-field
view `wxyz` alias the same four scalar slots with `v[0]=w`, `v[1]=x`,
`v[2]=y`, `v[3]=z`; assigning `w=1, x=2, y=3, z=4` through the named fields
makes the array view read `[1,2,3,4]`, and writing a slot through `v` is
observed through the corresponding named field. -/
theorem quaternion_union_alias (a b c d e : Float) (q : k4a_quaternion_t) :
    ((k4a_quaternion_t.mk ⟨a, b, c, d⟩).v 0 = a
      ∧ (k4a_quaternion_t.mk ⟨a, b, c, d⟩).v 1 = b
      ∧ (k4a_quaternion_t.mk ⟨a, b, c, d⟩).v 2 = c
      ∧ (k4a_quaternion_t.mk ⟨a, b, c, d⟩).v 3 = d)
  ∧ List.ofFn q.v = [q.wxyz.w, q.wxyz.x, q.wxyz.y, q.wxyz.z]
  ∧ ((q.setV 0 e).wxyz.w = e ∧ (q.setV 1 e).wxyz.x = e
      ∧ (q.setV 2 e).wxyz.y = e ∧ (q.setV 3 e).wxyz.z = e)
  ∧ List.ofFn (k4a_quaternion_t.mk ⟨1, 2, 3, 4⟩).v = [1, 2, 3, 4] := by
  exact ⟨⟨rfl, rfl, rfl, rfl⟩, rfl, ⟨rfl, rfl, rfl, rfl⟩, rfl⟩

/-- C3: the library-wide constants have the literal values
`K4ABT_BODY_INDEX_MAP_BACKGROUND = 255`,
`K4ABT_INVALID_BODY_ID = 0xFFFFFFFF` (in particular not 0), and
`K4ABT_DEFAULT_TRACKER_SMOOTHING_FACTOR = 0.5`. -/
theorem library_constants_literal_values :
    K4ABT_BODY_INDEX_MAP_BACKGROUND = 255
  ∧ K4ABT_INVALID_BODY_ID = 0xFFFFFFFF
  ∧ K4ABT_INVALID_BODY_ID = 4294967295
  ∧ K4ABT_INVALID_BODY_ID ≠ 0
  ∧ K4ABT_DEFAULT_TRACKER_SMOOTHING_FACTOR = 0.5 := by
  refine ⟨rfl, rfl, rfl, by decide, rfl⟩

/-- C4: the skeleton struct `k4abt_skeleton_t` is exactly one fixed-size array
of `K4ABT_JOINT_COUNT = 26` joints; every joint identifier other than the
count sentinel has ordinal below 26 and hence is a valid index into
`joints`, and a skeleton is determined by its `joints` field alone. -/
theorem skeleton_joint_array_shape :
    jointCount = 26
  ∧ (∀ j : k4abt_joint_id_t, jointIdOrdinal j < jointCount ↔ j ≠ .K4ABT_JOINT_COUNT)
  ∧ (∀ s : k4abt_skeleton_t, s = ⟨s.joints⟩) := by
  exact ⟨rfl, by decide, fun s => rfl⟩

/-- C5: the default tracker configuration constant
`K4ABT_TRACKER_CONFIG_DEFAULT` has its single field `sensor_orientation`
equal to `K4ABT_SENSOR_ORIENTATION_DEFAULT`, whose ordinal is 0; a
configuration is determined by that one field. -/
theorem tracker_config_default_value :
    K4ABT_TRACKER_CONFIG_DEFAULT.sensor_orientation
      = .K4ABT_SENSOR_ORIENTATION_DEFAULT
  ∧ orientationOrdinal K4ABT_TRACKER_CONFIG_DEFAULT.sensor_orientation = 0
  ∧ (∀ c : k4abt_tracker_configuration_t, c = ⟨c.sensor_orientation⟩) := by
  exact ⟨rfl, rfl, fun c => rfl⟩

/-- C6: the version string `K4ABT_VERSION_STR` is `"0.9.2"` and equals the
dot-joined rendering of the numeric components major 0, minor 9, patch 2. -/
theorem version_string_consistent :
    K4ABT_VERSION_STR = "0.9.2"
  ∧ K4ABT_VERSION_MAJOR = 0
  ∧ K4ABT_VERSION_MINOR = 9
  ∧ K4ABT_VERSION_PATCH = 2
  ∧ K4ABT_VERSION_STR
      = versionDotJoined K4ABT_VERSION_MAJOR K4ABT_VERSION_MINOR K4ABT_VERSION_PATCH := by
  refine ⟨rfl, rfl, rfl, rfl, by decide⟩

/-- C7: the sensor-orientation enumeration `k4abt_sensor_orientation_t` is a
closed enumeration of exactly 4 values, in the listed order default,
clockwise-90, counter-clockwise-90, flip-180, with consecutive ordinals
0 through 3. -/
theorem sensor_orientation_enum_shape :
    allOrientations.length = 4
  ∧ (∀ i : Fin allOrientations.length, orientationOrdinal (allOrientations.get i) = i.val)
  ∧ allOrientations.Nodup
  ∧ (∀ o : k4abt_sensor_orientation_t, o ∈ allOrientations)
  ∧ allOrientations.head? = some .K4ABT_SENSOR_ORIENTATION_DEFAULT
  ∧ allOrientations.getLast? = some .K4ABT_SENSOR_ORIENTATION_FLIP180 := by
  refine ⟨rfl, by decide, by decide, by decide, rfl, rfl⟩

/-- C8: the prerelease and build-metadata version components are both the
empty string, so the full semantic version renders to exactly `"0.9.2"` with
no prerelease or build-metadata suffix. -/
theorem version_no_prerelease_suffix :
    K4ABT_VERSION_PRERELEASE = ""
  ∧ K4ABT_VERSION_BUILD_METADATA = ""
  ∧ fullVersionStr K4ABT_VERSION_STR K4ABT_VERSION_PRERELEASE K4ABT_VERSION_BUILD_METADATA
      = "0.9.2" := by
  refine ⟨rfl, rfl, by decide⟩

/-- C9: for both opaque handle types, 0 is the designated invalid handle
value: the invalid tracker and frame handles are the zero pointer, the zero
handle is never valid, and validity of any handle is exactly comparison with
the zero handle. -/
theorem handle_zero_invalid :
    k4abt_tracker_t.invalid.ptr = 0
  ∧ k4abt_frame_t.invalid.ptr = 0
  ∧ k4abt_tracker_t.isValid .invalid = false
  ∧ k4abt_frame_t.isValid .invalid = false
  ∧ (∀ h : k4abt_tracker_t, h.isValid = true ↔ h ≠ .invalid)
  ∧ (∀ h : k4abt_frame_t, h.isValid = true ↔ h ≠ .invalid) := by
  refine ⟨rfl, rfl, rfl, rfl, ?_, ?_⟩
  · intro h
    obtain ⟨p⟩ := h
    simp [k4abt_tracker_t.isValid, k4abt_tracker_t.invalid, k4abt_tracker_t.mk.injEq]
  · intro h
    obtain ⟨p⟩ := h
    simp [k4abt_frame_t.isValid, k4abt_frame_t.invalid, k4abt_frame_t.mk.injEq]

/-- C10: `K4ABT_INVALID_BODY_ID` is exactly the maximum value representable in
the 32-bit unsigned `id` field of `k4abt_body_t` (2^32 - 1), fits in that
field, and is distinct from 0 and from `K4ABT_BODY_INDEX_MAP_BACKGROUND`. -/
theorem invalid_body_id_sentinel :
    K4ABT_INVALID_BODY_ID = 2 ^ 32 - 1
  ∧ K4ABT_INVALID_BODY_ID < 2 ^ 32
  ∧ K4ABT_INVALID_BODY_ID ≠ 0
  ∧ K4ABT_INVALID_BODY_ID ≠ K4ABT_BODY_INDEX_MAP_BACKGROUND
  ∧ (∀ b : k4abt_body_t, b.id.val ≤ K4ABT_INVALID_BODY_ID) := by
  refine ⟨by decide, by decide, by decide, by decide, ?_⟩
  intro b
  have hb := b.id.isLt
  have h2 : (2 : Nat) ^ 32 = 4294967296 := by norm_num
  show b.id.val ≤ 4294967295
  omega
